import Mathlib

/-!
Verification of the frame-synchronized rendering core of the Avenir repository.

Each Rust function under scrutiny is shallowly embedded as a Lean definition:
pure arithmetic becomes a Lean function on `Nat`, fallible code returns
`Except String _` carrying the exact error strings of the source, and the
device / surface environment (whose answers the code merely consumes) is
passed in as an explicit argument.  Apostrophes inside the error strings of
the source are written with the `\x27` escape.
-/

namespace Avenir

/-! ## `src/gfx_utils.rs` — device/surface negotiation

`GfxUtils::get_format`, `GfxUtils::get_present_mode` and
`GfxUtils::get_image_count` only consume the result of
`surface.compatibility(&adapter.physical_device)`; the embedding takes that
result (advertised formats / present modes / image-count range) as arguments.
-/

namespace GfxUtils

/-- `gfx_hal::format::ChannelType` (the part inspected by `get_format`). -/
inductive ChannelType where
  | Unorm
  | Snorm
  | Sfloat
  | Srgb
deriving DecidableEq, Repr

/-- A `gfx_hal::format::Format`: a surface-layout tag together with the
channel type returned by `format.base_format().1`. -/
structure Format where
  surface : Nat
  channel : ChannelType
deriving DecidableEq, Repr

/-- `Format::Rgba8Srgb`, the default used when the surface places no
constraint on formats. -/
def Format.Rgba8Srgb : Format := ⟨0, ChannelType.Srgb⟩

/-- `Format::Bgra8Unorm` (used only as a concrete sample format). -/
def Format.Bgra8Unorm : Format := ⟨1, ChannelType.Unorm⟩

/-- `Format::Bgra8Srgb` (used only as a concrete sample format). -/
def Format.Bgra8Srgb : Format := ⟨1, ChannelType.Srgb⟩

/-- `GfxUtils::get_format` (gfx_utils.rs:141-157).  `available_formats` is the
second component of `surface.compatibility(..)`: `None` means the surface
accepts any format, `Some formats` is the advertised list.  The source first
looks for a format whose `base_format().1` is `ChannelType::Srgb`, then falls
back to `formats.get(0)`, and errors when the advertised list is empty. -/
def get_format (available_formats : Option (List Format)) : Except String Format :=
  match available_formats with
  | none => Except.ok Format.Rgba8Srgb
  | some formats =>
    match formats.find? (fun format => format.channel == ChannelType.Srgb) with
    | some srgb_format => Except.ok srgb_format
    | none =>
      match formats[0]? with
      | some first => Except.ok first
      | none => Except.error "Available format list was empty!"

/-- `gfx_hal::window::PresentMode`. -/
inductive PresentMode where
  | Immediate
  | Relaxed
  | Fifo
  | Mailbox
deriving DecidableEq, Repr

/-- `GfxUtils::get_present_mode` (gfx_utils.rs:115-126).  `present_modes` is
the advertised set from `surface.compatibility(..)`; the source returns the
first entry of `preferred_modes` contained in it. -/
def get_present_mode (present_modes preferred_modes : List PresentMode) :
    Except String PresentMode :=
  match preferred_modes.find? (fun pm => present_modes.contains pm) with
  | some pm => Except.ok pm
  | none => Except.error "No PresentMode values specified!"

/-- `GfxUtils::get_image_count` (gfx_utils.rs:179-190).  `cap_min` and
`cap_max` are `caps.image_count.start` and `caps.image_count.end` of the
surface capabilities. -/
def get_image_count (cap_min cap_max : Nat) (present_mode : PresentMode) : Nat :=
  if present_mode = PresentMode.Mailbox then
    min (cap_max - 1) (max cap_min 3)
  else
    min (cap_max - 1) (max cap_min 2)

end GfxUtils

end Avenir

/-! ## `src/main.rs` — frame uniform/instance buffer layout

The pure layout arithmetic of the voxel renderer (`iceil`,
`buffer_frame_size`, `uniform_offset`, `models_offset`, `indirect_offset`,
main.rs:193-211) together with the compile-time region sizes
(main.rs:185-189).  Sizes are the `repr(C, align(16))` byte sizes of the Rust
structs: `UniformArgs` = 64 (`proj`) + 64 (`view`) + 4 (`lights_count`) +
12 (`pad`) + 32*32 (`lights`, each `Light` padded to 32) = 1168;
`Model` = 64 with `MAX_OBJECTS = 1`; `DrawIndexedCommand` = 5 * 4 = 20. -/

namespace Avenir

namespace VoxelMain

/-- `MAX_OBJECTS` (main.rs:186). -/
def MAX_OBJECTS : Nat := 1

/-- `UNIFORM_SIZE = size_of::<UniformArgs>()` (main.rs:187). -/
def UNIFORM_SIZE : Nat := 1168

/-- `MODELS_SIZE = size_of::<Model>() * MAX_OBJECTS` (main.rs:188). -/
def MODELS_SIZE : Nat := 64 * MAX_OBJECTS

/-- `INDIRECT_SIZE = size_of::<DrawIndexedCommand>()` (main.rs:189). -/
def INDIRECT_SIZE : Nat := 20

/-- `iceil(value, scale) = ((value - 1) / scale + 1) * scale` (main.rs:193). -/
def iceil (value scale : Nat) : Nat :=
  ((value - 1) / scale + 1) * scale

/-- `buffer_frame_size(align)` — the per-slot stride (main.rs:197). -/
def buffer_frame_size (align : Nat) : Nat :=
  iceil (UNIFORM_SIZE + MODELS_SIZE + INDIRECT_SIZE) align

/-- `uniform_offset(index, align)` (main.rs:201). -/
def uniform_offset (index align : Nat) : Nat :=
  buffer_frame_size align * index

/-- `models_offset(index, align)` (main.rs:205). -/
def models_offset (index align : Nat) : Nat :=
  uniform_offset index align + UNIFORM_SIZE

/-- `indirect_offset(index, align)` (main.rs:209). -/
def indirect_offset (index align : Nat) : Nat :=
  models_offset index align + MODELS_SIZE

/-- The descriptor-set construction loop of
`VoxelRenderPipelineDesc::build` (main.rs:299-317): one set per frame slot,
each binding the buffer range
`uniform_offset(index, align) .. uniform_offset(index, align) + UNIFORM_SIZE`.
A set is represented by its bound byte range (start, past-the-end). -/
def build_descriptor_sets (frames align : Nat) : List (Nat × Nat) :=
  (List.range frames).map
    (fun index => (uniform_offset index align, uniform_offset index align + UNIFORM_SIZE))

end VoxelMain

end Avenir

/-! ## `src/mesh.rs` — the divergent copy of the per-slot pipeline

`mesh.rs` holds an earlier revision of the same rendy pipeline.  Its
`PipelineDesc::build` (mesh.rs:129-211) creates one descriptor set per frame
slot but binds the buffer range `Some(index)..Some(index + UNIFORM_SIZE)` —
the loop index itself is used as the byte offset — while its own
`Pipeline::prepare` (mesh.rs:219-276) writes slot `index`'s uniform data at
byte offset `(UNIFORM_SIZE + MODEL_SIZE + INDIRECT_SIZE) * index`.  The
region sizes are the `repr(C, align(16))` sizes of the mesh.rs structs:
`UniformArgs` = 36 (`model`, Matrix3) + 64 (`proj`) + 64 (`view`) = 164,
padded to 176; `Model` = 64 with `MAX_INSTANCE = 1_000_000`;
`DrawIndexedCommand` = 20. -/

namespace Avenir

namespace MeshPipeline

/-- `UNIFORM_SIZE = size_of::<UniformArgs>()` (mesh.rs:53). -/
def UNIFORM_SIZE : Nat := 176

/-- `MAX_INSTANCE` (mesh.rs:54). -/
def MAX_INSTANCE : Nat := 1000000

/-- `MODEL_SIZE = size_of::<Model>() * MAX_INSTANCE` (mesh.rs:55). -/
def MODEL_SIZE : Nat := 64 * MAX_INSTANCE

/-- `INDIRECT_SIZE = size_of::<DrawIndexedCommand>()` (mesh.rs:56). -/
def INDIRECT_SIZE : Nat := 20

/-- The descriptor-set construction loop of `PipelineDesc::build`
(mesh.rs:156-174): for `index in 0..frames` the set is bound to the buffer
range `Some(index)..Some(index + UNIFORM_SIZE)`.  A set is represented by its
bound byte range (start, past-the-end). -/
def build_descriptor_ranges (frames : Nat) : List (Nat × Nat) :=
  (List.range frames).map (fun index => (index, index + UNIFORM_SIZE))

/-- The byte offset at which `Pipeline::prepare` (mesh.rs:229-243) uploads
slot `index`'s uniform arguments:
`(UNIFORM_SIZE + MODEL_SIZE + INDIRECT_SIZE) * index`. -/
def prepare_uniform_offset (index : Nat) : Nat :=
  (UNIFORM_SIZE + MODEL_SIZE + INDIRECT_SIZE) * index

end MeshPipeline

end Avenir

/-! ## `src/pipeline.rs` — the gfx-hal pipeline builder

`PipelineBuilder::build` (pipeline.rs:178-241) performs, in source order:
descriptor-set-layout creation, descriptor-pool creation, descriptor-set
allocation, pipeline-layout creation, then assembles the
`GraphicsPipelineDesc` whose struct-literal fields are evaluated in written
order — `shaders` (`vec_shader_entry_into_graphicset`), `rasterizer`,
`input_assembler`, `blender`, `depth_stencil`, `baked_states`, each `?`-ing
out on a missing piece — then creates the graphics pipeline, and only then
walks `self.shader_entries` destroying every shader module.  Device calls are
modelled by a `DeviceEnv` of success flags; a shader module is a `Nat`
handle; destroyed handles are returned next to the result.  The builder's
always-present accumulator vectors (`attributes_desc`, `vertex_buffers`,
`descriptor_set_layout_binding`, `descriptor_range_desc`,
`immutables_sampler`) never branch and are elided; the optional
fixed-function payloads are opaque marker structures. -/

namespace Avenir

namespace Pipeline

/-- `shaderc::ShaderKind` (the kinds the builder stores). -/
inductive ShaderKind where
  | Vertex
  | Fragment
  | Geometry
  | Compute
deriving DecidableEq, Repr

/-- `ShaderEntry` (pipeline.rs:31-35): a compiled shader module handle plus
its kind. -/
structure ShaderEntry where
  shader_module : Nat
  shader_type : ShaderKind
deriving DecidableEq, Repr

/-- `gfx_hal::pso::GraphicsShaderSet` as produced by
`vec_shader_entry_into_graphicset`: the vertex entry point (by module
handle) and the optional fragment entry point. -/
structure GraphicsShaderSet where
  vertex : Nat
  fragment : Option Nat
deriving DecidableEq, Repr

/-- Opaque `gfx_hal::pso::InputAssemblerDesc` payload. -/
structure InputAssemblerDesc deriving DecidableEq, Repr

/-- Opaque `gfx_hal::pso::Rasterizer` payload. -/
structure Rasterizer deriving DecidableEq, Repr

/-- Opaque `gfx_hal::pso::DepthStencilDesc` payload. -/
structure DepthStencilDesc deriving DecidableEq, Repr

/-- Opaque `gfx_hal::pso::BlendDesc` payload. -/
structure BlendDesc deriving DecidableEq, Repr

/-- Opaque `gfx_hal::pso::BakedStates` payload. -/
structure BakedStates deriving DecidableEq, Repr

/-- The state of a `PipelineBuilder` (pipeline.rs:86-104) at the moment
`build` is called: the accumulated shader entries and the five optional
fixed-function pieces that `build` validates. -/
structure PipelineBuilder where
  shader_entries : List ShaderEntry
  input_assembler_desc : Option InputAssemblerDesc
  rasterizer : Option Rasterizer
  depth_stencil_desc : Option DepthStencilDesc
  blender_desc : Option BlendDesc
  baked_states : Option BakedStates
deriving DecidableEq, Repr

/-- The result `Pipeline` (pipeline.rs:80-84); only the shader set assembled
into it is observable in this model. -/
structure BuiltPipeline where
  shaders : GraphicsShaderSet
deriving DecidableEq, Repr

/-- Success flags for the five fallible device calls `build` makes. -/
structure DeviceEnv where
  layout_ok : Bool
  pool_ok : Bool
  set_ok : Bool
  pipeline_layout_ok : Bool
  graphics_pipeline_ok : Bool
deriving DecidableEq, Repr

/-- The device environment in which every creation call succeeds. -/
def DeviceEnv.ideal : DeviceEnv := ⟨true, true, true, true, true⟩

/-- `vec_shader_entry_into_graphicset` (pipeline.rs:58-78): the position of
the first `Vertex` entry is mandatory (`"No vertex shader found."`), the
first `Fragment` entry is optional. -/
def vec_shader_entry_into_graphicset (entries : List ShaderEntry) :
    Except String GraphicsShaderSet :=
  match entries.find? (fun elem => elem.shader_type == ShaderKind.Vertex) with
  | none => Except.error "No vertex shader found."
  | some vertex_entry =>
    Except.ok
      { vertex := vertex_entry.shader_module
        fragment :=
          (entries.find? (fun elem => elem.shader_type == ShaderKind.Fragment)).map
            (fun e => e.shader_module) }

/-- `PipelineBuilder::build` (pipeline.rs:178-241).  Returns the source's
`Result` together with the list of shader-module handles passed to
`destroy_shader_module` before returning (in the source, that destruction
loop runs only after `create_graphics_pipeline` succeeded; every `?` exit
returns first). -/
def build (env : DeviceEnv) (b : PipelineBuilder) :
    Except String BuiltPipeline × List Nat :=
  if env.layout_ok = false then
    (Except.error "Couldn\x27t make a DescriptorSetLayout", [])
  else if env.pool_ok = false then
    (Except.error "Couldn\x27t create a descriptor pool!", [])
  else if env.set_ok = false then
    (Except.error "Couldn\x27t make a Descriptor Set!", [])
  else if env.pipeline_layout_ok = false then
    (Except.error "Couldn\x27t create a pipeline layout", [])
  else
    match vec_shader_entry_into_graphicset b.shader_entries with
    | Except.error e => (Except.error e, [])
    | Except.ok shaders =>
      match b.rasterizer with
      | none => (Except.error "No rasterizer specified.", [])
      | some _ =>
        match b.input_assembler_desc with
        | none => (Except.error "No input assembler desc specified.", [])
        | some _ =>
          match b.blender_desc with
          | none => (Except.error "No blender desc specified.", [])
          | some _ =>
            match b.depth_stencil_desc with
            | none => (Except.error "No depth stencil specified.", [])
            | some _ =>
              match b.baked_states with
              | none => (Except.error "No states specified.", [])
              | some _ =>
                if env.graphics_pipeline_ok = false then
                  (Except.error "Couldn\x27t create a graphics pipeline!", [])
                else
                  (Except.ok { shaders },
                   b.shader_entries.map (fun elem => elem.shader_module))

/-- Whether the builder holds a vertex-stage shader entry. -/
def hasVertexEntry (b : PipelineBuilder) : Bool :=
  (b.shader_entries.find? (fun elem => elem.shader_type == ShaderKind.Vertex)).isSome

end Pipeline

end Avenir

namespace Avenir

namespace Pipeline

/-- A builder holding one vertex shader module (handle 0) and every
fixed-function piece except the rasterizer. -/
def builderMissingRasterizer : PipelineBuilder :=
  { shader_entries := [⟨0, ShaderKind.Vertex⟩]
    input_assembler_desc := some ⟨⟩
    rasterizer := none
    depth_stencil_desc := some ⟨⟩
    blender_desc := some ⟨⟩
    baked_states := some ⟨⟩ }

/-- A builder holding one vertex shader module (handle 0), no fragment
stage, and every required fixed-function piece. -/
def builderComplete : PipelineBuilder :=
  { shader_entries := [⟨0, ShaderKind.Vertex⟩]
    input_assembler_desc := some ⟨⟩
    rasterizer := some ⟨⟩
    depth_stencil_desc := some ⟨⟩
    blender_desc := some ⟨⟩
    baked_states := some ⟨⟩ }

end Pipeline

end Avenir

/-! ## `src/hal_state.rs` — frame resources and the per-frame step

`GenericHalState::init` (hal_state.rs:116-318) creates, on its success path:
`frames_in_flight` fences via `create_fence(true)` (signaled),
`frames_in_flight` render-finished and `frames_in_flight` image-available
semaphores, one image view per backbuffer image, one framebuffer per image
view, and one command buffer per framebuffer acquired from a pool
(`CommandBuffer<B, Graphics, MultiShot, Primary>`).

`GenericHalState::draw_triangle_frame` (hal_state.rs:334-422) is embedded as
a function of the state and an environment of call outcomes; it returns
`none` where the source would panic on an out-of-bounds vector index, and
otherwise the updated state, the ordered list of frame steps started, and
the source's `Result`. -/

namespace Avenir

namespace HalState

/-- A fence; `create_fence(true)` produces it signaled. -/
structure Fence where
  signaled : Bool
deriving DecidableEq, Repr

/-- An opaque semaphore. -/
structure Semaphore deriving DecidableEq, Repr

/-- An image view derived from a backbuffer image handle. -/
structure ImageView where
  image : Nat
deriving DecidableEq, Repr

/-- A framebuffer bound to one image view. -/
structure Framebuffer where
  view : ImageView
deriving DecidableEq, Repr

/-- `gfx_hal::command` buffer level; the pool hands out `Primary` buffers. -/
inductive CommandLevel where
  | Primary
  | Secondary
deriving DecidableEq, Repr

/-- A command buffer acquired from the command pool. -/
structure CmdBuffer where
  level : CommandLevel
deriving DecidableEq, Repr

/-- The per-frame resources created by `GenericHalState::init`
(hal_state.rs:142-221). -/
structure FrameResources where
  in_flight_fences : List Fence
  render_finished_semaphores : List Semaphore
  image_available_semaphores : List Semaphore
  image_views : List ImageView
  framebuffers : List Framebuffer
  command_buffers : List CmdBuffer
deriving DecidableEq, Repr

/-- The success path of the resource-creation section of
`GenericHalState::init` (hal_state.rs:142-221): fences and the two semaphore
vectors are collected over `0..frames_in_flight`; `image_views` maps the
backbuffer images; `framebuffers` maps the image views; `command_buffers`
acquires one primary buffer per framebuffer. -/
def init_frame_resources (frames_in_flight : Nat) (backbuffer : List Nat) :
    FrameResources :=
  let in_flight_fences :=
    (List.range frames_in_flight).map (fun _ => ({ signaled := true } : Fence))
  let render_finished_semaphores :=
    (List.range frames_in_flight).map (fun _ => Semaphore.mk)
  let image_available_semaphores :=
    (List.range frames_in_flight).map (fun _ => Semaphore.mk)
  let image_views := backbuffer.map (fun image => ({ image } : ImageView))
  let framebuffers := image_views.map (fun view => ({ view } : Framebuffer))
  let command_buffers :=
    framebuffers.map (fun _ => ({ level := CommandLevel.Primary } : CmdBuffer))
  { in_flight_fences, render_finished_semaphores, image_available_semaphores,
    image_views, framebuffers, command_buffers }

/-- The steps of one `draw_triangle_frame` tick, in the order the source
starts them. -/
inductive FrameStep where
  | acquire
  | fenceWait
  | fenceReset
  | upload
  | record
  | submit
  | present
deriving DecidableEq, Repr

/-- The full step sequence of a successful frame. -/
def fullFrameSeq : List FrameStep :=
  [FrameStep.acquire, FrameStep.fenceWait, FrameStep.fenceReset,
   FrameStep.upload, FrameStep.record, FrameStep.submit, FrameStep.present]

/-- `l₁` is an initial segment of `l₂`. -/
def initSeg {α : Type} (l₁ l₂ : List α) : Prop :=
  ∃ t, l₁ ++ t = l₂

/-- Outcomes of the external calls `draw_triangle_frame` makes:
`acquire_image` (`some i` = acquired image index `i`, `none` = failure),
`wait_for_fence`, `reset_fence`, `acquire_mapping_writer`,
`release_mapping_writer`, and `present`. -/
structure FrameEnv where
  acquire_image : Option Nat
  wait_ok : Bool
  reset_ok : Bool
  writer_ok : Bool
  release_ok : Bool
  present_ok : Bool
deriving DecidableEq, Repr

/-- The fields of `GenericHalState` (hal_state.rs:62-82) read or written by
`draw_triangle_frame`; `vertices` is the optional buffer bundle. -/
structure State where
  current_frame : Nat
  frames_in_flight : Nat
  in_flight_fences : List Fence
  render_finished_semaphores : List Semaphore
  image_available_semaphores : List Semaphore
  command_buffers : List CmdBuffer
  framebuffers : List Framebuffer
  vertices : Option Unit
deriving DecidableEq, Repr

/-- `GenericHalState::draw_triangle_frame` (hal_state.rs:334-422).  `none`
models a panic from an out-of-bounds vector index
(`image_available_semaphores[current_frame]`,
`render_finished_semaphores[current_frame]`, `in_flight_fences[i_usize]`,
`command_buffers[i_usize]`, `framebuffers[i_usize]`); otherwise the result
carries the updated state, the list of steps started in order, and the
source's `Result` (with its exact error strings).  The source checks
`self.vertices` twice (upload and record) with the same value; the second
check can only repeat the first's outcome and is folded into it. -/
def draw_triangle_frame (env : FrameEnv) (s : State) :
    Option (State × List FrameStep × Except String Unit) :=
  match s.image_available_semaphores[s.current_frame]? with
  | none => none
  | some _image_available =>
  match s.render_finished_semaphores[s.current_frame]? with
  | none => none
  | some _render_finished =>
  let s1 : State := { s with current_frame := (s.current_frame + 1) % s.frames_in_flight }
  match env.acquire_image with
  | none =>
    some (s1, [FrameStep.acquire],
          Except.error "Couldn\x27t acquire an image from the swapchain!")
  | some i_usize =>
  match s1.in_flight_fences[i_usize]? with
  | none => none
  | some _flight_fence =>
  if env.wait_ok = false then
    some (s1, [FrameStep.acquire, FrameStep.fenceWait],
          Except.error "Failed to wait on the fence!")
  else if env.reset_ok = false then
    some (s1, [FrameStep.acquire, FrameStep.fenceWait, FrameStep.fenceReset],
          Except.error "Couldn\x27t reset the fence!")
  else
  match s1.vertices with
  | none =>
    some (s1, [FrameStep.acquire, FrameStep.fenceWait, FrameStep.fenceReset,
               FrameStep.upload],
          Except.error "Cannot find buffer bundle")
  | some _ =>
  if env.writer_ok = false then
    some (s1, [FrameStep.acquire, FrameStep.fenceWait, FrameStep.fenceReset,
               FrameStep.upload],
          Except.error "Failed to acquire a memory writer!")
  else if env.release_ok = false then
    some (s1, [FrameStep.acquire, FrameStep.fenceWait, FrameStep.fenceReset,
               FrameStep.upload],
          Except.error "Couldn\x27t release the mapping writer!")
  else
  match s1.command_buffers[i_usize]? with
  | none => none
  | some _buffer =>
  match s1.framebuffers[i_usize]? with
  | none => none
  | some _framebuffer =>
  if env.present_ok = false then
    some (s1, fullFrameSeq, Except.error "Failed to present into the swapchain!")
  else
    some (s1, fullFrameSeq, Except.ok ())

end HalState

end Avenir

namespace Avenir

open GfxUtils

/-- C3: over an advertised format list, `get_format` fails exactly on the
empty list (the source string playing the spec role of `NoFormatsAvailable`),
returns the first sRGB-capable format when one is advertised, and otherwise
returns the first advertised format. -/
theorem get_format_selects_srgb_else_first (l : List Format) :
    (get_format (some []) = Except.error "Available format list was empty!")
    ∧ (∀ f, l.find? (fun fmt => fmt.channel == ChannelType.Srgb) = some f →
        get_format (some l) = Except.ok f)
    ∧ (l.find? (fun fmt => fmt.channel == ChannelType.Srgb) = none →
        ∀ f, l[0]? = some f → get_format (some l) = Except.ok f) := by
  refine ⟨rfl, ?_, ?_⟩
  · intro f hf
    simp [get_format, hf]
  · intro hnone f hf
    simp [get_format, hnone, hf]

/-- Witness for C3 at a concrete advertised list: `[Bgra8Unorm, Bgra8Srgb]`
yields the sRGB entry, obtained by applying the theorem. -/
theorem get_format_selects_srgb_else_first_witness :
    get_format (some [Format.Bgra8Unorm, Format.Bgra8Srgb]) = Except.ok Format.Bgra8Srgb :=
  (get_format_selects_srgb_else_first [Format.Bgra8Unorm, Format.Bgra8Srgb]).2.1
    Format.Bgra8Srgb (by decide)

/-- C6: `get_present_mode` returns the first preferred present mode contained
in the advertised set; it fails (source string for `NoPresentModeAvailable`)
exactly when preference list and advertised set share no element.  The spec's
two sample selections are included. -/
theorem get_present_mode_first_preference (advertised preferred : List PresentMode) :
    (∀ pm, preferred.find? (fun m => advertised.contains m) = some pm →
        get_present_mode advertised preferred = Except.ok pm)
    ∧ (preferred.find? (fun m => advertised.contains m) = none ↔
        get_present_mode advertised preferred = Except.error "No PresentMode values specified!")
    ∧ (preferred.find? (fun m => advertised.contains m) = none ↔
        ∀ pm, pm ∈ preferred → pm ∉ advertised)
    ∧ get_present_mode [PresentMode.Fifo, PresentMode.Mailbox]
        [PresentMode.Mailbox, PresentMode.Fifo] = Except.ok PresentMode.Mailbox
    ∧ get_present_mode [PresentMode.Fifo] [PresentMode.Relaxed, PresentMode.Fifo]
        = Except.ok PresentMode.Fifo := by
  refine ⟨?_, ?_, ?_, by rfl, by rfl⟩
  · intro pm hpm
    simp only [get_present_mode]
    rw [hpm]
  · constructor
    · intro hnone
      simp only [get_present_mode]
      rw [hnone]
    · intro herr
      cases hfind : preferred.find? (fun m => advertised.contains m) with
      | none => rfl
      | some pm =>
        simp only [get_present_mode] at herr
        rw [hfind] at herr
        exact absurd herr (by simp)
  · rw [List.find?_eq_none]
    constructor
    · intro h pm hmem hcontra
      have := h pm hmem
      simp only [List.contains, List.elem_iff] at this
      exact this hcontra
    · intro h pm hmem
      simp only [List.contains, List.elem_iff]
      exact h pm hmem

/-- Witness for C6: no overlap between preference `[Relaxed]` and advertised
`{Fifo}` fails with the no-present-mode error, via the theorem. -/
theorem get_present_mode_first_preference_witness :
    get_present_mode [PresentMode.Fifo] [PresentMode.Relaxed]
      = Except.error "No PresentMode values specified!" :=
  (get_present_mode_first_preference [PresentMode.Fifo] [PresentMode.Relaxed]).2.1.mp
    (by decide)

/-- C5: the requested image count is `min (cap_max - 1) (max cap_min 3)` under
`Mailbox` and `min (cap_max - 1) (max cap_min 2)` under any other mode; for
the capability range `[2,4]` this gives 3 under `Mailbox` and 2 otherwise. -/
theorem get_image_count_policy :
    (∀ cap_min cap_max mode, 1 ≤ cap_max →
      get_image_count cap_min cap_max mode =
        if mode = PresentMode.Mailbox then min (cap_max - 1) (max cap_min 3)
        else min (cap_max - 1) (max cap_min 2))
    ∧ get_image_count 2 4 PresentMode.Mailbox = 3
    ∧ (∀ mode, mode ≠ PresentMode.Mailbox → get_image_count 2 4 mode = 2) := by
  refine ⟨fun cap_min cap_max mode _ => rfl, by decide, ?_⟩
  intro mode hmode
  cases mode <;> first | rfl | exact absurd rfl hmode

/-- Witness for C5 at the spec's sample range `[2,4]` with mode `Fifo`. -/
theorem get_image_count_policy_witness :
    get_image_count 2 4 PresentMode.Fifo = 2 :=
  get_image_count_policy.2.2 PresentMode.Fifo (by decide)

end Avenir

namespace Avenir

open VoxelMain

/-- Rounding up never falls below the value: `v ≤ iceil v a` for `0 < a`. -/
theorem le_iceil (v a : Nat) (ha : 0 < a) : v ≤ iceil v a := by
  unfold iceil
  have hlt : v - 1 < ((v - 1) / a + 1) * a := by
    calc v - 1 = a * ((v - 1) / a) + (v - 1) % a := (Nat.div_add_mod _ _).symm
    _ < a * ((v - 1) / a) + a := Nat.add_lt_add_left (Nat.mod_lt _ ha) _
    _ = ((v - 1) / a + 1) * a := by ring
  omega

/-- C1: the per-slot stride `buffer_frame_size align` is the sum of the three
region sizes rounded up to a multiple of `align` (in particular a multiple of
`align`), the uniform/instance/indirect regions of slot `i` start at
`i*stride`, `i*stride + UNIFORM_SIZE`, `i*stride + UNIFORM_SIZE + MODELS_SIZE`
respectively, the region starts are strictly increasing and the regions fit
without overlap within a slot and across consecutive slots. -/
theorem frame_layout_offsets (align i : Nat) (ha : 0 < align) :
    buffer_frame_size align % align = 0
    ∧ buffer_frame_size align = iceil (UNIFORM_SIZE + MODELS_SIZE + INDIRECT_SIZE) align
    ∧ UNIFORM_SIZE + MODELS_SIZE + INDIRECT_SIZE ≤ buffer_frame_size align
    ∧ uniform_offset i align = i * buffer_frame_size align
    ∧ models_offset i align = i * buffer_frame_size align + UNIFORM_SIZE
    ∧ indirect_offset i align = i * buffer_frame_size align + UNIFORM_SIZE + MODELS_SIZE
    ∧ uniform_offset i align < models_offset i align
    ∧ models_offset i align < indirect_offset i align
    ∧ indirect_offset i align + INDIRECT_SIZE ≤ uniform_offset (i + 1) align
    ∧ uniform_offset (i + 1) align = uniform_offset i align + buffer_frame_size align := by
  have hsum : UNIFORM_SIZE + MODELS_SIZE + INDIRECT_SIZE ≤ buffer_frame_size align :=
    le_iceil _ _ ha
  have hmod : buffer_frame_size align % align = 0 := by
    unfold buffer_frame_size iceil
    exact Nat.mul_mod_left _ _
  have hU : 0 < UNIFORM_SIZE := by decide
  have hM : 0 < MODELS_SIZE := by decide
  refine ⟨hmod, rfl, hsum, Nat.mul_comm _ _, ?_, ?_, ?_, ?_, ?_, ?_⟩
  · unfold models_offset uniform_offset
    ring
  · unfold indirect_offset models_offset uniform_offset
    ring
  · unfold models_offset
    omega
  · unfold indirect_offset
    omega
  · unfold indirect_offset models_offset uniform_offset
    have h2 : buffer_frame_size align * (i + 1) =
        buffer_frame_size align * i + buffer_frame_size align := by ring
    omega
  · unfold uniform_offset
    ring

/-- Witness for C1 at `align = 256`, slot `i = 1`: the stride there is 1280
(the rounded sum 1168+64+20 = 1252 → 1280), a multiple of 256. -/
theorem frame_layout_offsets_witness :
    0 < 256 ∧ buffer_frame_size 256 % 256 = 0 ∧ buffer_frame_size 256 = 1280 :=
  ⟨by decide, (frame_layout_offsets 256 1 (by decide)).1, by decide⟩

/-- C4: after the per-slot resources are built for `frames` slots, one
descriptor set exists per slot and the set of slot `i` binds exactly the
byte range `[i * stride, i * stride + UNIFORM_SIZE)` — slot `i`'s uniform
sub-region (main.rs `VoxelRenderPipelineDesc::build`). -/
theorem descriptor_sets_match_uniform_regions (frames align : Nat) :
    (build_descriptor_sets frames align).length = frames
    ∧ (∀ i : Nat, i < frames →
        (build_descriptor_sets frames align)[i]? =
          some (i * buffer_frame_size align, i * buffer_frame_size align + UNIFORM_SIZE)) := by
  constructor
  · simp [build_descriptor_sets]
  · intro i hi
    simp [build_descriptor_sets, hi, uniform_offset, Nat.mul_comm]

end Avenir

namespace Avenir

/-- C4 (code bug, evaluated at the failing input `frames = 2`, slot 1):
`PipelineDesc::build` in mesh.rs allocates one set per slot (count = 2), but
the set of slot 1 is bound to the byte range `[1, 177)` — the loop index used
as a byte offset — whereas slot 1's uniform sub-region, as written by the same
file's `Pipeline::prepare`, starts at `(176 + 64000000 + 20) * 1 = 64000196`.
The bound range is not the slot's uniform sub-region, contradicting the
claimed invariant; the sibling revision in main.rs
(`build_descriptor_sets`, proved in `descriptor_sets_match_uniform_regions`)
binds `uniform_offset(index, align)` as the spec states, which shows the
intent. -/
theorem mesh_descriptor_binding_diverges :
    (MeshPipeline.build_descriptor_ranges 2).length = 2
    ∧ (MeshPipeline.build_descriptor_ranges 2)[1]? = some (1, 1 + MeshPipeline.UNIFORM_SIZE)
    ∧ MeshPipeline.prepare_uniform_offset 1 = 64000196
    ∧ (1, 1 + MeshPipeline.UNIFORM_SIZE)
        ≠ (MeshPipeline.prepare_uniform_offset 1,
           MeshPipeline.prepare_uniform_offset 1 + MeshPipeline.UNIFORM_SIZE) := by
  exact ⟨rfl, rfl, rfl, by decide⟩

end Avenir

namespace Avenir

/-- Shader modules are destroyed exactly on the success path of
`PipelineBuilder::build`: when the graphics pipeline is created, every
accumulated module is destroyed before `build` returns; on every error exit
(device-object failure, missing required piece, or graphics-pipeline
creation failure) `build` returns without destroying any module. -/
theorem build_destroys_modules_only_on_success
    (env : Pipeline.DeviceEnv) (b : Pipeline.PipelineBuilder) :
    ((Pipeline.build env b).1.isOk = true →
      (Pipeline.build env b).2 = b.shader_entries.map (fun elem => elem.shader_module))
    ∧ ((Pipeline.build env b).1.isOk = false → (Pipeline.build env b).2 = []) := by
  unfold Pipeline.build
  repeat' split
  all_goals simp [Except.isOk, Except.toBool]

/-- Witness for the amended C2 statement: the complete builder in the ideal
environment destroys exactly its one module, via the theorem. -/
theorem build_destroys_modules_only_on_success_witness :
    (Pipeline.build Pipeline.DeviceEnv.ideal Pipeline.builderComplete).2 = [0] := by
  have h := (build_destroys_modules_only_on_success Pipeline.DeviceEnv.ideal
    Pipeline.builderComplete).1 (by rfl)
  simpa using h

/-- Counterexample to C2 as stated: with an ideal device, `build` on a
builder that accumulated one vertex shader module but lacks the rasterizer
exits with the missing-rasterizer error having destroyed nothing — the
accumulated module (handle 0) is left alive. -/
theorem build_leaks_modules_on_error_exit :
    (Pipeline.build Pipeline.DeviceEnv.ideal Pipeline.builderMissingRasterizer).1
      = Except.error "No rasterizer specified."
    ∧ (Pipeline.build Pipeline.DeviceEnv.ideal Pipeline.builderMissingRasterizer).2 = []
    ∧ Pipeline.builderMissingRasterizer.shader_entries.map (fun elem => elem.shader_module)
      = [0]
    ∧ (Pipeline.build Pipeline.DeviceEnv.ideal Pipeline.builderMissingRasterizer).2
      ≠ Pipeline.builderMissingRasterizer.shader_entries.map
          (fun elem => elem.shader_module) := by
  exact ⟨rfl, rfl, rfl, by decide⟩

/-- C7: with a willing device, `build` fails with the error naming the first
missing required piece (vertex-stage shader, rasterizer, input assembly,
blend, depth/stencil, baked viewport/scissor state) — the source strings
play the spec's `MissingPipelineState(field)` — and succeeds when all
required pieces are present; the vertex stage is mandatory, the fragment
stage is not required anywhere. -/
theorem build_requires_each_piece (b : Pipeline.PipelineBuilder) :
    (Pipeline.hasVertexEntry b = false →
      Pipeline.build Pipeline.DeviceEnv.ideal b
        = (Except.error "No vertex shader found.", []))
    ∧ (Pipeline.hasVertexEntry b = true → b.rasterizer = none →
      Pipeline.build Pipeline.DeviceEnv.ideal b
        = (Except.error "No rasterizer specified.", []))
    ∧ (Pipeline.hasVertexEntry b = true → b.rasterizer.isSome = true →
       b.input_assembler_desc = none →
      Pipeline.build Pipeline.DeviceEnv.ideal b
        = (Except.error "No input assembler desc specified.", []))
    ∧ (Pipeline.hasVertexEntry b = true → b.rasterizer.isSome = true →
       b.input_assembler_desc.isSome = true → b.blender_desc = none →
      Pipeline.build Pipeline.DeviceEnv.ideal b
        = (Except.error "No blender desc specified.", []))
    ∧ (Pipeline.hasVertexEntry b = true → b.rasterizer.isSome = true →
       b.input_assembler_desc.isSome = true → b.blender_desc.isSome = true →
       b.depth_stencil_desc = none →
      Pipeline.build Pipeline.DeviceEnv.ideal b
        = (Except.error "No depth stencil specified.", []))
    ∧ (Pipeline.hasVertexEntry b = true → b.rasterizer.isSome = true →
       b.input_assembler_desc.isSome = true → b.blender_desc.isSome = true →
       b.depth_stencil_desc.isSome = true → b.baked_states = none →
      Pipeline.build Pipeline.DeviceEnv.ideal b
        = (Except.error "No states specified.", []))
    ∧ (Pipeline.hasVertexEntry b = true → b.rasterizer.isSome = true →
       b.input_assembler_desc.isSome = true → b.blender_desc.isSome = true →
       b.depth_stencil_desc.isSome = true → b.baked_states.isSome = true →
      (Pipeline.build Pipeline.DeviceEnv.ideal b).1.isOk = true) := by
  have hvx_none : Pipeline.hasVertexEntry b = false →
      Pipeline.vec_shader_entry_into_graphicset b.shader_entries
        = Except.error "No vertex shader found." := by
    intro hv
    unfold Pipeline.hasVertexEntry at hv
    unfold Pipeline.vec_shader_entry_into_graphicset
    cases hfind : List.find? (fun elem => elem.shader_type == Pipeline.ShaderKind.Vertex)
        b.shader_entries with
    | none => rfl
    | some v => rw [hfind] at hv; simp at hv
  have hvx_some : Pipeline.hasVertexEntry b = true →
      ∃ g, Pipeline.vec_shader_entry_into_graphicset b.shader_entries = Except.ok g := by
    intro hv
    unfold Pipeline.hasVertexEntry at hv
    rw [Option.isSome_iff_exists] at hv
    obtain ⟨v, hv⟩ := hv
    refine ⟨{ vertex := v.shader_module, fragment := (List.find?
        (fun elem => elem.shader_type == Pipeline.ShaderKind.Fragment)
        b.shader_entries).map (fun e => e.shader_module) }, ?_⟩
    unfold Pipeline.vec_shader_entry_into_graphicset
    rw [hv]
  refine ⟨?_, ?_, ?_, ?_, ?_, ?_, ?_⟩
  · intro hv
    have := hvx_none hv
    simp [Pipeline.build, Pipeline.DeviceEnv.ideal, this]
  · intro hv hr
    obtain ⟨g, hg⟩ := hvx_some hv
    simp [Pipeline.build, Pipeline.DeviceEnv.ideal, hg, hr]
  · intro hv hr hia
    obtain ⟨g, hg⟩ := hvx_some hv
    obtain ⟨r, hr⟩ := Option.isSome_iff_exists.mp hr
    simp [Pipeline.build, Pipeline.DeviceEnv.ideal, hg, hr, hia]
  · intro hv hr hia hbl
    obtain ⟨g, hg⟩ := hvx_some hv
    obtain ⟨r, hr⟩ := Option.isSome_iff_exists.mp hr
    obtain ⟨ia, hia⟩ := Option.isSome_iff_exists.mp hia
    simp [Pipeline.build, Pipeline.DeviceEnv.ideal, hg, hr, hia, hbl]
  · intro hv hr hia hbl hds
    obtain ⟨g, hg⟩ := hvx_some hv
    obtain ⟨r, hr⟩ := Option.isSome_iff_exists.mp hr
    obtain ⟨ia, hia⟩ := Option.isSome_iff_exists.mp hia
    obtain ⟨bl, hbl⟩ := Option.isSome_iff_exists.mp hbl
    simp [Pipeline.build, Pipeline.DeviceEnv.ideal, hg, hr, hia, hbl, hds]
  · intro hv hr hia hbl hds hbs
    obtain ⟨g, hg⟩ := hvx_some hv
    obtain ⟨r, hr⟩ := Option.isSome_iff_exists.mp hr
    obtain ⟨ia, hia⟩ := Option.isSome_iff_exists.mp hia
    obtain ⟨bl, hbl⟩ := Option.isSome_iff_exists.mp hbl
    obtain ⟨ds, hds⟩ := Option.isSome_iff_exists.mp hds
    simp [Pipeline.build, Pipeline.DeviceEnv.ideal, hg, hr, hia, hbl, hds, hbs]
  · intro hv hr hia hbl hds hbs
    obtain ⟨g, hg⟩ := hvx_some hv
    obtain ⟨r, hr⟩ := Option.isSome_iff_exists.mp hr
    obtain ⟨ia, hia⟩ := Option.isSome_iff_exists.mp hia
    obtain ⟨bl, hbl⟩ := Option.isSome_iff_exists.mp hbl
    obtain ⟨ds, hds⟩ := Option.isSome_iff_exists.mp hds
    obtain ⟨bs, hbs⟩ := Option.isSome_iff_exists.mp hbs
    simp [Pipeline.build, Pipeline.DeviceEnv.ideal, hg, hr, hia, hbl, hds, hbs,
      Except.isOk, Except.toBool]

/-- Witness for C7: the builder missing only the rasterizer fails with the
missing-rasterizer error, via the theorem. -/
theorem build_requires_each_piece_witness :
    Pipeline.build Pipeline.DeviceEnv.ideal Pipeline.builderMissingRasterizer
      = (Except.error "No rasterizer specified.", []) :=
  (build_requires_each_piece Pipeline.builderMissingRasterizer).2.1 (by rfl) rfl

end Avenir

namespace Avenir

/-- An initial segment is exactly a take-prefix. -/
theorem initSeg_iff_take {α : Type} (l₁ l₂ : List α) :
    HalState.initSeg l₁ l₂ ↔ l₂.take l₁.length = l₁ := by
  constructor
  · rintro ⟨t, rfl⟩
    exact List.take_left l₁ t
  · intro h
    refine ⟨l₂.drop l₁.length, ?_⟩
    nth_rewrite 1 [← h]
    exact List.take_append_drop _ _

/-- C9: `init` builds exactly `frames_in_flight` fences, all in the signaled
state, exactly `frames_in_flight` image-available and `frames_in_flight`
render-finished semaphores, one image view and one framebuffer per swapchain
image, and one primary command buffer per framebuffer. -/
theorem init_frame_resources_counts (frames_in_flight : Nat) (backbuffer : List Nat) :
    (HalState.init_frame_resources frames_in_flight backbuffer).in_flight_fences
      = List.replicate frames_in_flight { signaled := true }
    ∧ (HalState.init_frame_resources frames_in_flight backbuffer).in_flight_fences.length
      = frames_in_flight
    ∧ (HalState.init_frame_resources frames_in_flight backbuffer).image_available_semaphores.length
      = frames_in_flight
    ∧ (HalState.init_frame_resources frames_in_flight backbuffer).render_finished_semaphores.length
      = frames_in_flight
    ∧ (HalState.init_frame_resources frames_in_flight backbuffer).image_views.length
      = backbuffer.length
    ∧ (HalState.init_frame_resources frames_in_flight backbuffer).framebuffers.length
      = (HalState.init_frame_resources frames_in_flight backbuffer).image_views.length
    ∧ (HalState.init_frame_resources frames_in_flight backbuffer).command_buffers
      = List.replicate backbuffer.length { level := HalState.CommandLevel.Primary }
    ∧ (HalState.init_frame_resources frames_in_flight backbuffer).command_buffers.length
      = (HalState.init_frame_resources frames_in_flight backbuffer).framebuffers.length := by
  unfold HalState.init_frame_resources
  refine ⟨?_, ?_, ?_, ?_, ?_, ?_, ?_, ?_⟩
  · simp [List.map_const', List.length_range]
  · simp [List.length_map, List.length_range]
  · simp [List.length_map, List.length_range]
  · simp [List.length_map, List.length_range]
  · simp [List.length_map]
  · simp [List.length_map]
  · simp only [List.map_const', List.length_map]
  · simp [List.length_map]

/-- C8: every run of `draw_triangle_frame` that does not panic starts its
frame steps in the strict order acquire, fence wait, fence reset, buffer
upload, command recording, submission, present — the started steps always
form an initial segment of that sequence, so no step starts unless every
earlier one succeeded — and a run that returns `Ok` started the full
sequence. -/
theorem frame_steps_strictly_ordered (env : HalState.FrameEnv) (s s2 : HalState.State)
    (tr : List HalState.FrameStep) (res : Except String Unit) :
    HalState.draw_triangle_frame env s = some (s2, tr, res) →
    HalState.initSeg tr HalState.fullFrameSeq
    ∧ (res = Except.ok () → tr = HalState.fullFrameSeq) := by
  intro h
  unfold HalState.draw_triangle_frame at h
  rcases hA : s.image_available_semaphores[s.current_frame]? with - | ia
  · rw [hA] at h; exact Option.noConfusion h
  rw [hA] at h; dsimp only at h
  rcases hB : s.render_finished_semaphores[s.current_frame]? with - | rf
  · rw [hB] at h; exact Option.noConfusion h
  rw [hB] at h; dsimp only at h
  rcases hC : env.acquire_image with - | i
  · rw [hC] at h; dsimp only at h
    obtain ⟨-, rfl, rfl⟩ := by simpa using h
    exact ⟨(initSeg_iff_take _ _).mpr rfl, by simp⟩
  rw [hC] at h; dsimp only at h
  rcases hD : s.in_flight_fences[i]? with - | fe
  · rw [hD] at h; exact Option.noConfusion h
  rw [hD] at h; dsimp only at h
  rcases hw : env.wait_ok
  · rw [hw] at h
    obtain ⟨-, rfl, rfl⟩ := by simpa using h
    exact ⟨(initSeg_iff_take _ _).mpr rfl, by simp⟩
  rw [hw] at h; rw [if_neg (by decide)] at h
  rcases hr : env.reset_ok
  · rw [hr] at h
    obtain ⟨-, rfl, rfl⟩ := by simpa using h
    exact ⟨(initSeg_iff_take _ _).mpr rfl, by simp⟩
  rw [hr] at h; rw [if_neg (by decide)] at h
  rcases hV : s.vertices with - | v
  · rw [hV] at h; dsimp only at h
    obtain ⟨-, rfl, rfl⟩ := by simpa using h
    exact ⟨(initSeg_iff_take _ _).mpr rfl, by simp⟩
  rw [hV] at h; dsimp only at h
  rcases hwr : env.writer_ok
  · rw [hwr] at h
    obtain ⟨-, rfl, rfl⟩ := by simpa using h
    exact ⟨(initSeg_iff_take _ _).mpr rfl, by simp⟩
  rw [hwr] at h; rw [if_neg (by decide)] at h
  rcases hrel : env.release_ok
  · rw [hrel] at h
    obtain ⟨-, rfl, rfl⟩ := by simpa using h
    exact ⟨(initSeg_iff_take _ _).mpr rfl, by simp⟩
  rw [hrel] at h; rw [if_neg (by decide)] at h
  rcases hCB : s.command_buffers[i]? with - | cb
  · rw [hCB] at h; exact Option.noConfusion h
  rw [hCB] at h; dsimp only at h
  rcases hFB : s.framebuffers[i]? with - | fb
  · rw [hFB] at h; exact Option.noConfusion h
  rw [hFB] at h; dsimp only at h
  rcases hp : env.present_ok
  · rw [hp] at h
    obtain ⟨-, rfl, rfl⟩ := by simpa using h
    exact ⟨(initSeg_iff_take _ _).mpr rfl, by simp⟩
  · rw [hp] at h
    obtain ⟨-, rfl, rfl⟩ := by simpa using h
    exact ⟨(initSeg_iff_take _ _).mpr rfl, by simp⟩

/-- Witness for C8: a fully successful environment on a well-formed state
runs the complete ordered sequence, via the theorem. -/
theorem frame_steps_strictly_ordered_witness :
    HalState.initSeg HalState.fullFrameSeq HalState.fullFrameSeq
    ∧ (Except.ok () = (Except.ok () : Except String Unit)
        → HalState.fullFrameSeq = HalState.fullFrameSeq) :=
  frame_steps_strictly_ordered
    { acquire_image := some 0, wait_ok := true, reset_ok := true,
      writer_ok := true, release_ok := true, present_ok := true }
    { current_frame := 0, frames_in_flight := 2,
      in_flight_fences := List.replicate 2 { signaled := true },
      render_finished_semaphores := List.replicate 2 ⟨⟩,
      image_available_semaphores := List.replicate 2 ⟨⟩,
      command_buffers := List.replicate 2 { level := HalState.CommandLevel.Primary },
      framebuffers := List.replicate 2 { view := { image := 0 } },
      vertices := some () }
    _ _ _ (by rfl)

/-- C10: under the structural facts established by `init` (fence and
semaphore vectors of length `frames_in_flight`, `current_frame` in range),
the per-frame step is panic-free exactly when the acquired image index `i`
is below `frames_in_flight`: the fence lookup `in_flight_fences[i]` makes
the run return `none` (source: index panic) whenever
`frames_in_flight ≤ i`, and when `i` is below `frames_in_flight` and the
per-image vectors cover `i` the run never panics; moreover the semaphore
index `current_frame` stays below `frames_in_flight` after the step. -/
theorem fence_indexed_by_image_bounds (env : HalState.FrameEnv) (s : HalState.State)
    (i : Nat)
    (hf : s.in_flight_fences.length = s.frames_in_flight)
    (hia : s.image_available_semaphores.length = s.frames_in_flight)
    (hrf : s.render_finished_semaphores.length = s.frames_in_flight)
    (hcur : s.current_frame < s.frames_in_flight)
    (hacq : env.acquire_image = some i) :
    (s.frames_in_flight ≤ i → HalState.draw_triangle_frame env s = none)
    ∧ (i < s.frames_in_flight → i < s.command_buffers.length →
        i < s.framebuffers.length → HalState.draw_triangle_frame env s ≠ none)
    ∧ (∀ s2 tr res, HalState.draw_triangle_frame env s = some (s2, tr, res) →
        s2.current_frame < s.frames_in_flight) := by
  have hia2 : s.image_available_semaphores[s.current_frame]?
      = some (s.image_available_semaphores.get ⟨s.current_frame, by omega⟩) :=
    List.getElem?_eq_getElem (by omega)
  have hrf2 : s.render_finished_semaphores[s.current_frame]?
      = some (s.render_finished_semaphores.get ⟨s.current_frame, by omega⟩) :=
    List.getElem?_eq_getElem (by omega)
  have hpos : 0 < s.frames_in_flight := by omega
  refine ⟨?_, ?_, ?_⟩
  · intro hge
    unfold HalState.draw_triangle_frame
    rw [hia2, hrf2, hacq]
    have hnone : s.in_flight_fences[i]? = none := by
      rw [List.getElem?_eq_none]
      omega
    simp [hnone]
  · intro hi hcb hfb
    unfold HalState.draw_triangle_frame
    rw [hia2, hrf2, hacq]
    have hfence : s.in_flight_fences[i]?
        = some (s.in_flight_fences.get ⟨i, by omega⟩) :=
      List.getElem?_eq_getElem (by omega)
    have hcb2 : s.command_buffers[i]?
        = some (s.command_buffers.get ⟨i, hcb⟩) :=
      List.getElem?_eq_getElem hcb
    have hfb2 : s.framebuffers[i]?
        = some (s.framebuffers.get ⟨i, hfb⟩) :=
      List.getElem?_eq_getElem hfb
    simp only [hfence, hcb2, hfb2]
    repeat' split
    all_goals simp
  · intro s2 tr res h
    unfold HalState.draw_triangle_frame at h
    rcases hA : s.image_available_semaphores[s.current_frame]? with - | ia
    · rw [hA] at h; exact Option.noConfusion h
    rw [hA] at h; dsimp only at h
    rcases hB : s.render_finished_semaphores[s.current_frame]? with - | rf
    · rw [hB] at h; exact Option.noConfusion h
    rw [hB] at h; dsimp only at h
    rw [hacq] at h; dsimp only at h
    rcases hD : s.in_flight_fences[i]? with - | fe
    · rw [hD] at h; exact Option.noConfusion h
    rw [hD] at h; dsimp only at h
    rcases hw : env.wait_ok
    · rw [hw] at h
      obtain ⟨hs2, -, -⟩ := by simpa using h
      subst hs2
      exact Nat.mod_lt _ hpos
    rw [hw] at h; rw [if_neg (by decide)] at h
    rcases hr : env.reset_ok
    · rw [hr] at h
      obtain ⟨hs2, -, -⟩ := by simpa using h
      subst hs2
      exact Nat.mod_lt _ hpos
    rw [hr] at h; rw [if_neg (by decide)] at h
    rcases hV : s.vertices with - | v
    · rw [hV] at h; dsimp only at h
      obtain ⟨hs2, -, -⟩ := by simpa using h
      subst hs2
      exact Nat.mod_lt _ hpos
    rw [hV] at h; dsimp only at h
    rcases hwr : env.writer_ok
    · rw [hwr] at h
      obtain ⟨hs2, -, -⟩ := by simpa using h
      subst hs2
      exact Nat.mod_lt _ hpos
    rw [hwr] at h; rw [if_neg (by decide)] at h
    rcases hrel : env.release_ok
    · rw [hrel] at h
      obtain ⟨hs2, -, -⟩ := by simpa using h
      subst hs2
      exact Nat.mod_lt _ hpos
    rw [hrel] at h; rw [if_neg (by decide)] at h
    rcases hCB : s.command_buffers[i]? with - | cb
    · rw [hCB] at h; exact Option.noConfusion h
    rw [hCB] at h; dsimp only at h
    rcases hFB : s.framebuffers[i]? with - | fb
    · rw [hFB] at h; exact Option.noConfusion h
    rw [hFB] at h; dsimp only at h
    rcases hp : env.present_ok
    · rw [hp] at h
      obtain ⟨hs2, -, -⟩ := by simpa using h
      subst hs2
      exact Nat.mod_lt _ hpos
    · rw [hp] at h
      obtain ⟨hs2, -, -⟩ := by simpa using h
      subst hs2
      exact Nat.mod_lt _ hpos

/-- Witness for C10 at a concrete state with two frame slots: acquired index
1 is in bounds, so the step does not panic, via the theorem. -/
theorem fence_indexed_by_image_bounds_witness :
    HalState.draw_triangle_frame
      { acquire_image := some 1, wait_ok := true, reset_ok := true,
        writer_ok := true, release_ok := true, present_ok := true }
      { current_frame := 0, frames_in_flight := 2,
        in_flight_fences := List.replicate 2 { signaled := true },
        render_finished_semaphores := List.replicate 2 ⟨⟩,
        image_available_semaphores := List.replicate 2 ⟨⟩,
        command_buffers := List.replicate 2 { level := HalState.CommandLevel.Primary },
        framebuffers := List.replicate 2 { view := { image := 0 } },
        vertices := some () } ≠ none :=
  (fence_indexed_by_image_bounds _ _ 1 (by simp) (by simp) (by simp) (by decide)
    (by rfl)).2.1 (by decide) (by simp) (by simp)

end Avenir
